import Mathlib

/-!
Verification of the JsonValidate repository (src/Module.py): a script that
loads `data.json` and `schema.json`, validates the data against the schema
via the external `jsonschema` library, logs outcomes to `validation.log`,
and prints a one-line result to the console.

Shallow embedding conventions:
* Python objects parsed from JSON are modelled by `JSON`.  Python has a
  single `None` object which is both the parsed form of JSON `null` and the
  failure sentinel returned by `load_json`; the embedding mirrors this by
  letting `load_json` return `JSON.null` on every failure path, and letting
  `main`'s `data is None` test be the null test `isNull`.
* The filesystem is a function `FS` from a path to the outcome of the
  combined `open` + `json.load` primitive (success with a parsed value,
  `FileNotFoundError`, `json.JSONDecodeError` with message/line/column, or
  any other exception with its text).
* The external `jsonschema.validate` capability is a black-box `Oracle`:
  for given data and schema it either returns, raises a `ValidationError`
  carrying the first violation message and the path `e.path` to the
  offending node, or raises some other exception.
* Log records and console prints are collected in output lists; `main`
  additionally records the ordered load attempts and whether the validator
  was invoked.
* Exception flow is made explicit in a second, `Except`-level translation
  (`load_jsonE`, `validate_dataE`, `mainE`) where each `try/except` block is
  the combinator `tryExcept` searching an ordered handler list by Python
  class membership (`isInstance`); the pure functions are proved to be its
  always-`ok` collapse.  `BaseException`s that Python's `except Exception`
  does not catch (e.g. `KeyboardInterrupt`) are outside the model, as they
  are outside the spec.
-/

set_option autoImplicit false

namespace JsonValidate

/-- A JSON value as produced by Python's `json.load`: null, boolean, number,
string, array, or object.  Numbers are modelled by `Int`; no claim below
depends on non-integer numerics. -/
inductive JSON where
  | null
  | bool (b : Bool)
  | num (n : Int)
  | str (s : String)
  | arr (elems : List JSON)
  | obj (fields : List (String × JSON))

/-- Python's `x is None` test: true exactly on the null object. -/
def isNull : JSON → Bool
  | .null => true
  | _ => false

/-- An element of `jsonschema.ValidationError.path`: an object key or an
array index locating the offending node from the data root. -/
inductive PathElem where
  | key (s : String)
  | idx (n : Nat)
  deriving DecidableEq

/-- Python `repr` of one path element (keys quoted, indices bare). -/
def pathElemRepr : PathElem → String
  | .key s => "\x27" ++ s ++ "\x27"
  | .idx n => toString n

/-- Python `repr` of `list(e.path)`, as interpolated by `logging.error`. -/
def pathRepr (p : List PathElem) : String :=
  "[" ++ String.intercalate (", ") (p.map pathElemRepr) ++ "]"

/-- The exceptions the modelled primitives can raise (all of them subclasses
of Python's `Exception`). -/
inductive PyExc where
  | fileNotFoundError
  | jsonDecodeError (msg : String) (lineno colno : Nat)
  | validationError (message : String) (path : List PathElem)
  | otherException (text : String)
  deriving DecidableEq

/-- `str(e)` for a modelled exception, as used by the `{e}` interpolations
in the catch-all handlers. -/
def excText : PyExc → String
  | .fileNotFoundError => "FileNotFoundError"
  | .jsonDecodeError m l c =>
      m ++ ": line " ++ toString l ++ " column " ++ toString c
  | .validationError m _ => m
  | .otherException t => t

/-- The exception classes named by the `except` clauses of Module.py. -/
inductive ExcClass where
  | fileNotFoundErrorC
  | jsonDecodeErrorC
  | validationErrorC
  | exceptionC

/-- Python class membership for the modelled hierarchy: each concrete
exception is an instance of its own class and of `Exception`. -/
def isInstance : PyExc → ExcClass → Bool
  | .fileNotFoundError, .fileNotFoundErrorC => true
  | .jsonDecodeError _ _ _, .jsonDecodeErrorC => true
  | .validationError _ _, .validationErrorC => true
  | _, .exceptionC => true
  | _, _ => false

/-- Severity level of a log record (`logging.info` / `logging.error`). -/
inductive Level where
  | info
  | error
  deriving DecidableEq

/-- One record appended to the `validation.log` sink: severity and the
fully formatted message text. -/
structure LogRecord where
  level : Level
  msg : String
  deriving DecidableEq

/-- The outcome of the `open(filepath)` + `json.load(f)` primitive at one
path: a parsed value, or one of the exceptions `load_json` handles. -/
inductive ReadResult where
  | ok (v : JSON)
  | fileNotFound
  | decodeError (msg : String) (lineno colno : Nat)
  | otherError (text : String)

/-- A filesystem state: what reading-and-parsing each path yields. -/
def FS : Type := String → ReadResult

/-- The external `jsonschema.validate(instance, schema)` capability:
returns, or raises (`ValidationError` for non-conformance, anything else
for e.g. a malformed schema). -/
def Oracle : Type := JSON → JSON → Except PyExc Unit

def dataPath : String := "data.json"

def schemaPath : String := "schema.json"

/-- Log message of `load_json` success. -/
def msgReadOk (fp : String) : String :=
  "Файл успешно прочитан: " ++ fp

/-- Log message of `load_json` on `FileNotFoundError`. -/
def msgNotFound (fp : String) : String :=
  "Файл не найден: " ++ fp

/-- Log message of `load_json` on `json.JSONDecodeError`: path, parser
message, and the parser-reported (1-based) line and column. -/
def msgDecodeError (fp m : String) (l c : Nat) : String :=
  "Ошибка разбора JSON в файле " ++ fp ++ ": " ++ m ++
    " (строка " ++ toString l ++ ", колонка " ++ toString c ++ ")"

/-- Log message of `load_json`'s catch-all handler. -/
def msgReadUnknown (fp t : String) : String :=
  "Неизвестная ошибка при чтении файла " ++ fp ++ ": " ++ t

/-- Log message of `validate_data` success. -/
def msgValidateOk : String := "Валидация прошла успешно"

/-- Log message of `validate_data` on `ValidationError`: the violation
message and `list(e.path)`. -/
def msgValidateFail (m : String) (p : List PathElem) : String :=
  "Ошибка валидации JSON: " ++ m ++ " | Путь в данных: " ++ pathRepr p

/-- Log message of `validate_data`'s catch-all handler. -/
def msgValidateUnknown (t : String) : String :=
  "Неизвестная ошибка при валидации JSON: " ++ t

/-- Log message of `main` when a loaded value is absent. -/
def msgNotLoaded : String :=
  "Данные или схема не были загружены, валидация невозможна"

/-- Console line of `main` on a valid result. -/
def msgPrintValid : String := "Данные валидны по схеме"

/-- Console line of `main` on an invalid result. -/
def msgPrintInvalid : String :=
  "Данные НЕ соответствуют схеме, подробности см. в лог-файле"

/-- The body of `load_json`'s `try` block: `open` + `json.load`, raising
the corresponding exception on each failure. -/
def openAndParse (fs : FS) (filepath : String) : Except PyExc JSON :=
  match fs filepath with
  | .ok v => .ok v
  | .fileNotFound => .error .fileNotFoundError
  | .decodeError m l c => .error (.jsonDecodeError m l c)
  | .otherError t => .error (.otherException t)

/-- `load_json(filepath)` of Module.py: read and parse the file, log one
info record on success and return the value; on each handled exception log
one error record and return `None` (here `JSON.null`, see the header note).
Result: (returned value, emitted log records in order). -/
def load_json (fs : FS) (filepath : String) : JSON × List LogRecord :=
  match openAndParse fs filepath with
  | .ok data => (data, [⟨.info, msgReadOk filepath⟩])
  | .error .fileNotFoundError => (.null, [⟨.error, msgNotFound filepath⟩])
  | .error (.jsonDecodeError m l c) =>
      (.null, [⟨.error, msgDecodeError filepath m l c⟩])
  | .error e => (.null, [⟨.error, msgReadUnknown filepath (excText e)⟩])

/-- `validate_data(data, schema)` of Module.py: call the external
`jsonschema.validate`; on return log one info record and return `True`;
on `ValidationError` log one error record with the violation message and
`list(e.path)` and return `False`; on any other exception log one error
record with the exception text and return `False`.
Result: (returned boolean, emitted log records in order). -/
def validate_data (check : Oracle) (data schema : JSON) :
    Bool × List LogRecord :=
  match check data schema with
  | .ok _ => (true, [⟨.info, msgValidateOk⟩])
  | .error (.validationError m p) =>
      (false, [⟨.error, msgValidateFail m p⟩])
  | .error e => (false, [⟨.error, msgValidateUnknown (excText e)⟩])

/-- The observable effects of one run of `main`: console lines printed,
log records appended, the ordered file paths passed to `load_json`, and
the arguments of the `validate_data` call when one happened. -/
structure RunResult where
  prints : List String
  logs : List LogRecord
  loadAttempts : List String
  validatorCalled : Option (JSON × JSON)

/-- `main()` of Module.py.  The script reads no command-line arguments;
`argv` stands for whatever the process was invoked with and is ignored.
Loads `data.json` then `schema.json`; if either returned value `is None`,
logs the failure record and returns; otherwise calls `validate_data` and
prints exactly one console line according to the boolean. -/
def main (argv : List String) (fs : FS) (check : Oracle) : RunResult :=
  match load_json fs dataPath, load_json fs schemaPath with
  | (data, logs1), (schema, logs2) =>
    if isNull data || isNull schema then
      { prints := []
        logs := logs1 ++ logs2 ++ [⟨.error, msgNotLoaded⟩]
        loadAttempts := [dataPath, schemaPath]
        validatorCalled := none }
    else
      match validate_data check data schema with
      | (is_valid, logs3) =>
        { prints := [if is_valid then msgPrintValid else msgPrintInvalid]
          logs := logs1 ++ logs2 ++ logs3
          loadAttempts := [dataPath, schemaPath]
          validatorCalled := some (data, schema) }

/-- Run the handlers of a `try/except` chain against a raised exception:
the first `except` clause whose class the exception is an instance of
handles it. -/
def firstHandler {α : Type} (e : PyExc) :
    List (ExcClass × (PyExc → α)) → Option α
  | [] => none
  | (cls, h) :: rest =>
      if isInstance e cls then some (h e) else firstHandler e rest

/-- Python `try/except` semantics: run the body; a raised exception is
given to the first matching handler, and re-raised when no clause
matches. -/
def tryExcept {α : Type} (body : Except PyExc α)
    (handlers : List (ExcClass × (PyExc → α))) : Except PyExc α :=
  match body with
  | .ok a => .ok a
  | .error e =>
      match firstHandler e handlers with
      | some a => .ok a
      | none => .error e

/-- `load_json` with exception flow explicit: the `try` body, then the
three `except` clauses of Module.py in source order
(`FileNotFoundError`, `json.JSONDecodeError`, `Exception`). -/
def load_jsonE (fs : FS) (filepath : String) :
    Except PyExc (JSON × List LogRecord) :=
  tryExcept
    (match openAndParse fs filepath with
      | .ok data => .ok (data, [⟨.info, msgReadOk filepath⟩])
      | .error e => .error e)
    [(.fileNotFoundErrorC, fun _ =>
        (.null, [⟨.error, msgNotFound filepath⟩])),
     (.jsonDecodeErrorC, fun e =>
        match e with
        | .jsonDecodeError m l c =>
            (.null, [⟨.error, msgDecodeError filepath m l c⟩])
        | e => (.null, [⟨.error, msgReadUnknown filepath (excText e)⟩])),
     (.exceptionC, fun e =>
        (.null, [⟨.error, msgReadUnknown filepath (excText e)⟩]))]

/-- `validate_data` with exception flow explicit: the `try` body, then the
two `except` clauses of Module.py in source order (`ValidationError`,
`Exception`). -/
def validate_dataE (check : Oracle) (data schema : JSON) :
    Except PyExc (Bool × List LogRecord) :=
  tryExcept
    (match check data schema with
      | .ok _ => .ok (true, [⟨.info, msgValidateOk⟩])
      | .error e => .error e)
    [(.validationErrorC, fun e =>
        match e with
        | .validationError m p => (false, [⟨.error, msgValidateFail m p⟩])
        | e => (false, [⟨.error, msgValidateUnknown (excText e)⟩])),
     (.exceptionC, fun e =>
        (false, [⟨.error, msgValidateUnknown (excText e)⟩]))]

/-- `main` with exception flow explicit: any exception escaping a callee
would propagate to the process boundary as an abnormal termination. -/
def mainE (argv : List String) (fs : FS) (check : Oracle) :
    Except PyExc RunResult :=
  match load_jsonE fs dataPath with
  | .error e => .error e
  | .ok (data, logs1) =>
    match load_jsonE fs schemaPath with
    | .error e => .error e
    | .ok (schema, logs2) =>
      if isNull data || isNull schema then
        .ok { prints := []
              logs := logs1 ++ logs2 ++ [⟨.error, msgNotLoaded⟩]
              loadAttempts := [dataPath, schemaPath]
              validatorCalled := none }
      else
        match validate_dataE check data schema with
        | .error e => .error e
        | .ok (is_valid, logs3) =>
          .ok { prints :=
                  [if is_valid then msgPrintValid else msgPrintInvalid]
                logs := logs1 ++ logs2 ++ logs3
                loadAttempts := [dataPath, schemaPath]
                validatorCalled := some (data, schema) }

/-! ### Helper lemmas -/

/-- Every call of `load_json` emits exactly one log record. -/
theorem load_json_logs_length (fs : FS) (fp : String) :
    (load_json fs fp).2.length = 1 := by
  cases h : fs fp <;> simp [load_json, openAndParse, h]

/-- The handler chain of `load_json` covers every modelled exception, so
the `Except`-level translation always collapses to `ok` of the pure one. -/
theorem load_jsonE_eq (fs : FS) (fp : String) :
    load_jsonE fs fp = Except.ok (load_json fs fp) := by
  cases h : fs fp <;>
    simp [load_jsonE, load_json, openAndParse, tryExcept, firstHandler,
      isInstance, h]

/-- The handler chain of `validate_data` covers every modelled exception,
so the `Except`-level translation always collapses to `ok` of the pure
one. -/
theorem validate_dataE_eq (check : Oracle) (data schema : JSON) :
    validate_dataE check data schema =
      Except.ok (validate_data check data schema) := by
  cases h : check data schema with
  | ok u => simp [validate_dataE, validate_data, tryExcept, h]
  | error e =>
      cases e <;>
        simp [validate_dataE, validate_data, tryExcept, firstHandler,
          isInstance, h]

/-! ### Concrete instances used by witnesses and counterexamples -/

/-- An oracle for which the data conforms to the schema. -/
def okOracle : Oracle := fun _ _ => .ok ()

/-- The violation message of the spec's required-property example. -/
def exMsg : String := "\x27name\x27 is a required property"

/-- The violation path of the spec's required-property example. -/
def exPath : List PathElem := [.key "items", .idx 0, .key "name"]

/-- An oracle raising a `ValidationError` for the spec's example. -/
def failOracle : Oracle := fun _ _ => .error (.validationError exMsg exPath)

/-- An oracle raising a non-`ValidationError` exception, as the library
does when the schema document itself is invalid. -/
def badSchemaOracle : Oracle :=
  fun _ _ => .error (.otherException "Unknown type: \x27not-a-real-type\x27")

/-- A filesystem on which both fixed files read successfully. -/
def fsValid : FS := fun p =>
  if p = dataPath then .ok (.obj [("items", .arr [.obj [("id", .num 1)]])])
  else if p = schemaPath then .ok (.obj [("type", .str "object")])
  else .fileNotFound

/-- A filesystem on which `data.json` is missing. -/
def fsMissingData : FS := fun p =>
  if p = schemaPath then .ok (.obj [("type", .str "object")])
  else .fileNotFound

/-- A filesystem on which `data.json` holds malformed JSON text. -/
def fsBadData : FS := fun p =>
  if p = dataPath then .decodeError ("Expecting value") 2 13
  else if p = schemaPath then .ok (.obj []) else .fileNotFound

/-- A filesystem on which `data.json` holds the well-formed text `null`
and `schema.json` a well-formed object. -/
def fsDataNull : FS := fun p =>
  if p = dataPath then .ok .null
  else if p = schemaPath then .ok (.obj []) else .fileNotFound

/-- A filesystem on which every file holds the well-formed text `null`. -/
def fsNullFiles : FS := fun _ => .ok .null

/-! ### Claims -/

/-- C1: for every data value and schema value, `validate_data` returns
`True` and emits exactly one info record when the data conforms to the
schema (the underlying call returns); when it does not conform (the
underlying call raises `ValidationError` with the first violation's
message and path), it emits exactly one error record containing that
message and the ordered path from the data root, and returns `False`. -/
theorem validate_data_first_violation (check : Oracle) (data schema : JSON) :
    (check data schema = .ok () →
      validate_data check data schema = (true, [⟨.info, msgValidateOk⟩]))
  ∧ (∀ m p, check data schema = .error (.validationError m p) →
      validate_data check data schema =
        (false, [⟨.error, msgValidateFail m p⟩])) := by
  constructor
  · intro h; simp [validate_data, h]
  · intro m p h; simp [validate_data, h]

/-- Witness for C1 at the two concrete oracles. -/
theorem validate_data_first_violation_witness :
    validate_data okOracle JSON.null JSON.null =
      (true, [⟨.info, msgValidateOk⟩])
  ∧ validate_data failOracle JSON.null JSON.null =
      (false, [⟨.error, msgValidateFail exMsg exPath⟩]) :=
  ⟨(validate_data_first_violation okOracle .null .null).1 rfl,
   (validate_data_first_violation failOracle .null .null).2 exMsg exPath rfl⟩

/-- C2: whenever either load yields the absent value (`None`), `main`
emits the data-or-schema-not-loaded error record, prints nothing, and
the validator is never invoked — the run's outcome does not depend on
the oracle at all and records no validator call. -/
theorem main_absent_load (argv : List String) (fs : FS)
    (check check2 : Oracle)
    (h : isNull (load_json fs dataPath).1 = true ∨
         isNull (load_json fs schemaPath).1 = true) :
    (main argv fs check).prints = []
  ∧ (main argv fs check).logs =
      (load_json fs dataPath).2 ++ (load_json fs schemaPath).2 ++
        [⟨.error, msgNotLoaded⟩]
  ∧ (main argv fs check).validatorCalled = none
  ∧ main argv fs check = main argv fs check2 := by
  rcases hd : load_json fs dataPath with ⟨data, logs1⟩
  rcases hs : load_json fs schemaPath with ⟨schema, logs2⟩
  rw [hd] at h; rw [hs] at h
  have hcond : (isNull data || isNull schema) = true := by
    rcases h with h | h <;> simp_all
  simp [main, hd, hs, hcond]

/-- Witness for C2 on the filesystem missing `data.json`. -/
theorem main_absent_load_witness :
    isNull (load_json fsMissingData dataPath).1 = true
  ∧ (main [] fsMissingData okOracle).prints = []
  ∧ (main [] fsMissingData okOracle).validatorCalled = none := by
  refine ⟨by decide, ?_, ?_⟩
  · exact (main_absent_load [] fsMissingData okOracle okOracle
      (Or.inl (by decide))).1
  · exact (main_absent_load [] fsMissingData okOracle okOracle
      (Or.inl (by decide))).2.2.1

/-- C3: `load_json` returns the parsed value with exactly one info record
naming the path on success, and the `None` sentinel with exactly one
error record on each failure path (file not found, JSON parse error, any
other error) — never a partial result, always exactly one record. -/
theorem load_json_total_contract (fs : FS) (fp : String) :
    (∀ v, fs fp = .ok v →
      load_json fs fp = (v, [⟨.info, msgReadOk fp⟩]))
  ∧ (fs fp = .fileNotFound →
      load_json fs fp = (.null, [⟨.error, msgNotFound fp⟩]))
  ∧ (∀ m l c, fs fp = .decodeError m l c →
      load_json fs fp = (.null, [⟨.error, msgDecodeError fp m l c⟩]))
  ∧ (∀ t, fs fp = .otherError t →
      load_json fs fp = (.null, [⟨.error, msgReadUnknown fp t⟩]))
  ∧ (load_json fs fp).2.length = 1 := by
  refine ⟨?_, ?_, ?_, ?_, load_json_logs_length fs fp⟩
  · intro v h; simp [load_json, openAndParse, h]
  · intro h; simp [load_json, openAndParse, h]
  · intro m l c h; simp [load_json, openAndParse, h]
  · intro t h; simp [load_json, openAndParse, excText, h]

/-- Witness for C3: success on `fsValid`, failure on `fsMissingData`. -/
theorem load_json_total_contract_witness :
    load_json fsValid schemaPath =
      (.obj [("type", .str "object")], [⟨.info, msgReadOk schemaPath⟩])
  ∧ load_json fsMissingData dataPath =
      (.null, [⟨.error, msgNotFound dataPath⟩]) :=
  ⟨(load_json_total_contract fsValid schemaPath).1
      (.obj [("type", .str "object")]) rfl,
   (load_json_total_contract fsMissingData dataPath).2.1 rfl⟩

/-- C4: when the underlying validation call raises any exception other
than a `ValidationError`, `validate_data` propagates nothing: it emits
one error record containing the exception text and returns `False` — the
same boolean an ordinary validation failure produces. -/
theorem validate_data_other_exception (check : Oracle) (data schema : JSON)
    (e : PyExc) (hne : ∀ m p, e ≠ .validationError m p)
    (h : check data schema = .error e) :
    validate_data check data schema =
      (false, [⟨.error, msgValidateUnknown (excText e)⟩])
  ∧ (validate_data check data schema).1 =
      (validate_data failOracle data schema).1 := by
  cases e with
  | validationError m p => exact absurd rfl (hne m p)
  | fileNotFoundError =>
      simp [validate_data, failOracle, h]
  | jsonDecodeError m l c =>
      simp [validate_data, failOracle, h]
  | otherException t =>
      simp [validate_data, failOracle, h]

/-- Witness for C4 at the malformed-schema oracle. -/
theorem validate_data_other_exception_witness :
    validate_data badSchemaOracle JSON.null JSON.null =
      (false, [⟨.error, msgValidateUnknown
        ("Unknown type: \x27not-a-real-type\x27")⟩]) :=
  (validate_data_other_exception badSchemaOracle .null .null
    (.otherException ("Unknown type: \x27not-a-real-type\x27"))
    (fun m p hmp => by cases hmp) rfl).1

/-- C5: for every filesystem state and every validation outcome (including
arbitrary raised exceptions), the exception-level run of `main` never
surfaces an exception: it always terminates normally with the pure run's
observable result; no distinct exit paths exist. -/
theorem mainE_no_uncaught (argv : List String) (fs : FS) (check : Oracle) :
    mainE argv fs check = Except.ok (main argv fs check) := by
  rcases hd : load_json fs dataPath with ⟨data, logs1⟩
  rcases hs : load_json fs schemaPath with ⟨schema, logs2⟩
  rcases hv : validate_data check data schema with ⟨b, logs3⟩
  simp [mainE, main, load_jsonE_eq, validate_dataE_eq, hd, hs, hv]
  by_cases hnull : isNull data = true ∨ isNull schema = true <;> simp [hnull]

/-- C6 counterexample: the console lines are not the literal strings the
claim quotes — on a conforming run the single printed line differs from
"data is valid" — and "both loads succeed" does not suffice: on
`fsDataNull` both loads succeed (each logs its info record) yet nothing
is printed, because the parsed `null` is taken for an absent value. -/
theorem main_print_counterexample :
    (main [] fsValid okOracle).prints ≠ [("data is valid")]
  ∧ (load_json fsDataNull dataPath).2 = [⟨.info, msgReadOk dataPath⟩]
  ∧ (load_json fsDataNull schemaPath).2 = [⟨.info, msgReadOk schemaPath⟩]
  ∧ (main [] fsDataNull okOracle).prints = [] := by
  refine ⟨by decide, rfl, rfl, rfl⟩

/-- C6 amended: whenever both loads yield non-absent (non-null) values,
`main` prints exactly one line — "Данные валидны по схеме" when
`validate_data` returns `True`, "Данные НЕ соответствуют схеме,
подробности см. в лог-файле" otherwise. -/
theorem main_print_amended (argv : List String) (fs : FS) (check : Oracle)
    (h1 : isNull (load_json fs dataPath).1 = false)
    (h2 : isNull (load_json fs schemaPath).1 = false) :
    (main argv fs check).prints =
      [if (validate_data check (load_json fs dataPath).1
            (load_json fs schemaPath).1).1
       then msgPrintValid else msgPrintInvalid] := by
  rcases hd : load_json fs dataPath with ⟨data, logs1⟩
  rcases hs : load_json fs schemaPath with ⟨schema, logs2⟩
  rw [hd] at h1; rw [hs] at h2
  simp at h1 h2
  rcases hv : validate_data check data schema with ⟨b, logs3⟩
  simp [main, hd, hs, hv, h1, h2]

/-- Witness for C6's amended theorem on a conforming concrete run. -/
theorem main_print_amended_witness :
    (main [] fsValid okOracle).prints = [msgPrintValid] := by
  have h := main_print_amended [] fsValid okOracle (by decide) (by decide)
  simpa [okOracle, validate_data] using h

/-- C7: when the file opens but its contents are not well-formed JSON,
`load_json` fails with the decode error and the single emitted error
record carries the path, the parser's message, and the line and column
exactly as the parser reported them. -/
theorem load_json_decode_error (fs : FS) (fp m : String) (l c : Nat)
    (h : fs fp = .decodeError m l c) :
    load_json fs fp =
      (.null, [⟨.error, msgDecodeError fp m l c⟩])
  ∧ (load_json fs fp).2 = [⟨.error,
      "Ошибка разбора JSON в файле " ++ fp ++ ": " ++ m ++
        " (строка " ++ toString l ++ ", колонка " ++ toString c ++ ")"⟩] := by
  constructor
  · simp [load_json, openAndParse, h]
  · simp [load_json, openAndParse, h, msgDecodeError]

/-- Witness for C7 on the filesystem with malformed `data.json`. -/
theorem load_json_decode_error_witness :
    load_json fsBadData dataPath =
      (.null, [⟨.error, msgDecodeError dataPath ("Expecting value") 2 13⟩]) :=
  (load_json_decode_error fsBadData dataPath ("Expecting value") 2 13 rfl).1

/-- C8: `main` ignores the process arguments and, on every filesystem and
oracle, attempts exactly the two fixed loads `data.json` then
`schema.json` — the first two log records of any run are the data load's
record followed by the schema load's record, even when the data load
fails — before branching on absence. -/
theorem main_two_fixed_loads (argv : List String) (fs : FS)
    (check : Oracle) :
    main argv fs check = main [] fs check
  ∧ (main argv fs check).loadAttempts = [dataPath, schemaPath]
  ∧ (main argv fs check).logs.take 2 =
      (load_json fs dataPath).2 ++ (load_json fs schemaPath).2 := by
  obtain ⟨r1, hr1⟩ :=
    List.length_eq_one.mp (load_json_logs_length fs dataPath)
  obtain ⟨r2, hr2⟩ :=
    List.length_eq_one.mp (load_json_logs_length fs schemaPath)
  rcases hd : load_json fs dataPath with ⟨data, logs1⟩
  rcases hs : load_json fs schemaPath with ⟨schema, logs2⟩
  rw [hd] at hr1; rw [hs] at hr2
  simp at hr1 hr2
  subst hr1; subst hr2
  rcases hv : validate_data check data schema with ⟨b, logs3⟩
  cases hcond : isNull data || isNull schema <;>
    simp [main, hd, hs, hv, hcond]

/-- C10: a file whose contents are the well-formed JSON text `null` loads
successfully — `load_json` logs an info record — yet returns the very
value that is the failure sentinel; `main` therefore takes the
not-loaded branch: whatever the oracle, the validator is never invoked,
nothing is printed, and the log shows two successful loads followed by
the not-loaded error. -/
theorem load_json_null_conflated :
    load_json fsNullFiles dataPath =
      (JSON.null, [⟨.info, msgReadOk dataPath⟩])
  ∧ ∀ (argv : List String) (check : Oracle),
      (main argv fsNullFiles check).validatorCalled = none
    ∧ (main argv fsNullFiles check).prints = []
    ∧ (main argv fsNullFiles check).logs =
        [⟨.info, msgReadOk dataPath⟩, ⟨.info, msgReadOk schemaPath⟩,
          ⟨.error, msgNotLoaded⟩] :=
  ⟨rfl, fun _ _ => ⟨rfl, rfl, rfl⟩⟩

end JsonValidate
